import Mathlib

/-!
# Verification of the DeployX multi-backend deployment core

Shallow embedding of the deployment engine (`src/platforms/...`,
`src/commands/auth.py`) in Lean 4.  Python functions are translated into
executable Lean functions; the process environment (file system, environment
variables, CLI tools, network responses) is passed in explicitly as oracle
values; Python exceptions are made explicit with `Except PyExc`.

Modules of the repository that are imported by the embedded code but are not
present in the source tree (`utils/errors.py`, `core/logging.py`) are modelled
from the specification; every such definition carries a doc comment starting
with `Modelled from the spec:`.
-/

namespace DeployX

/-- Python exception values, tagged by the exception classes that the embedded
code distinguishes in its `except` clauses.  `other` covers every further
`Exception` subclass (e.g. `AttributeError`, `OSError`, JSON decode errors). -/
inductive PyExc where
  /-- `requests.exceptions.ConnectionError` -/
  | connectionError (msg : String)
  /-- `requests.exceptions.Timeout` -/
  | timeout (msg : String)
  /-- `github.GithubException`, carrying the HTTP status -/
  | githubException (status : Nat) (msg : String)
  /-- `git.GitCommandError` -/
  | gitCommandError (msg : String)
  /-- any other `Exception` subclass -/
  | other (name : String) (msg : String)
deriving Repr, DecidableEq

/-- `str(e)` for an embedded exception. -/
def PyExc.message : PyExc → String
  | .connectionError m => m
  | .timeout m => m
  | .githubException _ m => m
  | .gitCommandError m => m
  | .other _ m => m

/-- `True` exactly on the `.ok` constructor. -/
def exceptIsOk {α : Type} : Except PyExc α → Bool
  | .ok _ => true
  | .error _ => false

/-- `platforms/base.py`: dataclass `DeploymentResult`. -/
structure DeploymentResult where
  success : Bool
  url : Option String := none
  message : String := ""
  deploymentId : Option String := none
deriving Repr, DecidableEq

/-- `platforms/base.py`: dataclass `DeploymentStatus`. -/
structure DeploymentStatus where
  status : String
  url : Option String := none
  lastUpdated : Option String := none
  message : String := ""
deriving Repr, DecidableEq

/-- Python truthiness of an optional string: `None` and `""` are falsy. -/
def truthy : Option String → Bool
  | none => false
  | some s => s ≠ ""

/-- Auxiliary for `pySplit`: split a character list at every occurrence of
`sep`, keeping empty segments, exactly like Python `str.split(sep)`. -/
def splitCharList (sep : Char) : List Char → List (List Char)
  | [] => [[]]
  | c :: cs =>
    let rest := splitCharList sep cs
    if c = sep then [] :: rest
    else
      match rest with
      | r :: rs => (c :: r) :: rs
      | [] => [[c]]

/-- Python `s.split(sep)` for a single-character separator. -/
def pySplit (sep : Char) (s : String) : List String :=
  (splitCharList sep s.toList).map (fun l => String.mk l)

/-- Python `s.strip()` (whitespace on both ends). -/
def pyStrip (s : String) : String :=
  String.mk (((s.toList.dropWhile Char.isWhitespace).reverse.dropWhile
    Char.isWhitespace).reverse)

/-- Does `hay` start with `needle`? (over character lists) -/
def listStartsWith : List Char → List Char → Bool
  | _, [] => true
  | [], _ :: _ => false
  | h :: hs, n :: ns => h = n && listStartsWith hs ns

/-- Is `needle` an infix of `hay`? (over character lists) -/
def listContainsSub : List Char → List Char → Bool
  | [], needle => needle.isEmpty
  | h :: t, needle => listStartsWith (h :: t) needle || listContainsSub t needle

/-- Python `needle in hay` on strings (substring test). -/
def pyContains (hay needle : String) : Bool :=
  listContainsSub hay.toList needle.toList

/-! ## GitHub Pages URL (`GitHubPlatform.get_url`,
`GitHubDeployment._generate_pages_url`) -/

/-- `platforms/github/deployment.py`, `GitHubDeployment._generate_pages_url`:
returns `""` when the repository name is unset/malformed, otherwise the
Pages URL; special-cases `owner/owner.github.io`. -/
def generatePagesUrl (repoName : Option String) : String :=
  match repoName with
  | none => ""
  | some name =>
    if name = "" then ""
    else
      match pySplit '/' name with
      | [username, repo] =>
        if repo = username ++ ".github.io" then
          "https://" ++ username ++ ".github.io"
        else
          "https://" ++ username ++ ".github.io/" ++ repo
      | _ => ""

/-- `platforms/github/platform.py`, `GitHubPlatform.get_url`: same case split
as `_generate_pages_url` but returning `None` instead of `""`. -/
def githubGetUrl (repoName : Option String) : Option String :=
  match repoName with
  | none => none
  | some name =>
    if name = "" then none
    else
      match pySplit '/' name with
      | [username, repo] =>
        if repo = username ++ ".github.io" then
          some ("https://" ++ username ++ ".github.io")
        else
          some ("https://" ++ username ++ ".github.io/" ++ repo)
      | _ => none

/-! ## Credential resolution (`_get_token` on each platform,
`commands/auth.py`) -/

/-- `commands/auth.py` (`auth_clear_command`, `_setup_platform_auth`,
`_check_*_auth`): the token file written, checked and removed for a platform
is `.deployx_{platform}_token`. -/
def authTokenFileName (platform : String) : String :=
  ".deployx_" ++ platform ++ "_token"

/-- `platforms/github/platform.py`, `GitHubPlatform._get_token`: reads the
file `.deployx_token`. -/
def githubTokenFileName : String := ".deployx_token"

/-- `platforms/netlify/platform.py`, `NetlifyPlatform._get_token`. -/
def netlifyTokenFileName : String := ".deployx_netlify_token"

/-- `platforms/vercel/platform.py`, `VercelPlatform._get_token`. -/
def vercelTokenFileName : String := ".deployx_vercel_token"

/-- `platforms/railway/platform.py`, `RailwayPlatform._get_token`. -/
def railwayTokenFileName : String := ".deployx_railway_token"

/-- The shared shape of `_get_token` (GitHub, Netlify, Vercel and Railway
differ only in the token file name and the environment variable name):
(1) if the platform CLI is available and yields a non-empty token, return it;
(2) else if the token file exists and its stripped content is non-empty,
return that; (3) else return the environment variable (verbatim, which for
`os.getenv` is `None` when unset).  `fs` maps a file name to its content when
the file exists; `env` maps a variable name to its value when set; a read
error on the token file is absorbed by the `except` clause, which the map
model folds into "file absent". -/
def getTokenFrom (fs env : String → Option String) (cliAvailable : Bool)
    (cliToken : Option String) (fileName envName : String) : Option String :=
  let fromCli : Option String :=
    if cliAvailable then
      match cliToken with
      | some t => if t ≠ "" then some t else none
      | none => none
    else none
  match fromCli with
  | some t => some t
  | none =>
    let fromFile : Option String :=
      match fs fileName with
      | some content =>
        let t := pyStrip content
        if t ≠ "" then some t else none
      | none => none
    match fromFile with
    | some t => some t
    | none => env envName

/-- `GitHubPlatform._get_token`. -/
def githubGetToken (fs env : String → Option String) (cliAvailable : Bool)
    (cliToken : Option String) : Option String :=
  getTokenFrom fs env cliAvailable cliToken githubTokenFileName "GITHUB_TOKEN"

/-- `NetlifyPlatform._get_token`. -/
def netlifyGetToken (fs env : String → Option String) (cliAvailable : Bool)
    (cliToken : Option String) : Option String :=
  getTokenFrom fs env cliAvailable cliToken netlifyTokenFileName "NETLIFY_TOKEN"

/-- `VercelPlatform._get_token`. -/
def vercelGetToken (fs env : String → Option String) (cliAvailable : Bool)
    (cliToken : Option String) : Option String :=
  getTokenFrom fs env cliAvailable cliToken vercelTokenFileName "VERCEL_TOKEN"

/-- `RailwayPlatform._get_token`. -/
def railwayGetToken (fs env : String → Option String) (cliAvailable : Bool)
    (cliToken : Option String) : Option String :=
  getTokenFrom fs env cliAvailable cliToken railwayTokenFileName "RAILWAY_TOKEN"

/-! ## Auto-creation name probing
(`GitHubAutoCreation._generate_suggested_name`) -/

/-- Python `project_name.lower().replace(" ", "-").replace("_", "-")`
(character-wise, as both replaced patterns are single characters). -/
def normalizeProjectName (s : String) : String :=
  String.mk (s.toList.map (fun c =>
    let c := c.toLower
    if c = ' ' ∨ c = '_' then '-' else c))

/-- The `while True` suffix-probing loop of
`platforms/github/auto_creation.py`, `_generate_suggested_name` (lines
101-108).  `repoExists name` models `github_client.get_repo(...)` returning a
repository (an exception from `get_repo` takes the bare `except` branch,
meaning "name free").  The Python loop is unbounded; `fuel` bounds only the
Lean recursion: a `none` result means the loop has not returned within `fuel`
probe attempts. -/
def generateSuggestedNameLoop (repoExists : String → Bool) (baseName : String) :
    Nat → Nat → Option String
  | 0, _ => none
  | fuel + 1, counter =>
    let newName := baseName ++ "-" ++ toString counter
    if repoExists newName then
      generateSuggestedNameLoop repoExists baseName fuel (counter + 1)
    else some newName

/-- `GitHubAutoCreation._generate_suggested_name`, with the unbounded probing
loop given `fuel` attempts. -/
def generateSuggestedName (repoExists : String → Bool) (projectName : String)
    (fuel : Nat) : Option String :=
  let baseName := normalizeProjectName projectName
  if repoExists baseName then generateSuggestedNameLoop repoExists baseName fuel 1
  else some baseName

/-! ## Error helpers and retry wrapper (modelled: `utils/errors.py` is not in
the source tree) -/

/-- Modelled from the spec: `utils/errors.py` (`handle_auth_error`) is not
under `src/`.  Spec §4.2: absence of a credential at all three sources is
converted by the caller into a uniform `"<backend> token not found"` message;
other authentication failures carry a human-readable reason (§7). -/
def handleAuthErrorMessage (platform details : String) : String :=
  if details = "No token provided" then platform ++ " token not found"
  else platform ++ " authentication error: " ++ details

/-- Modelled from the spec: `utils/errors.py` (`handle_github_api_error`) is
not under `src/`.  Spec §7: a `BackendAPIError` message mentions the rejecting
status and reason. -/
def handleGithubApiErrorMessage (status : Nat) (msg : String) : String :=
  "GitHub API error (" ++ toString status ++ "): " ++ msg

/-- Modelled from the spec: `utils/errors.py` (`handle_build_error`) is not
under `src/`.  Spec §7: `BuildOutputMissingError` surfaces the human-readable
reason. -/
def handleBuildErrorMessage (msg : String) : String := msg

/-- Modelled from the spec: `utils/errors.py` (`handle_git_error`) is not
under `src/`.  Spec §7: `VersionControlOperationError` surfaces the
human-readable reason. -/
def handleGitErrorMessage (msg : String) : String := msg

/-- Spec §4.3/§7: transient failures are connection failures, timeouts and
5xx-class server responses. -/
def isTransient : PyExc → Bool
  | .connectionError _ => true
  | .timeout _ => true
  | .githubException status _ => 500 ≤ status && status < 600
  | _ => false

/-- Modelled from the spec: `utils/errors.py` (`retry_with_backoff`, used as
`@retry_with_backoff(max_retries=3)`) is not under `src/`.  Spec §4.3/§7: the
wrapper retries only classified-transient failures up to its budget and then
surfaces the last error's message prefixed to indicate exhaustion; every other
failure is surfaced immediately as a `(false, message)` value — no exception
crosses the PlatformContract boundary.  Attempts are modelled as identical,
collapsing the retry budget to one classification step. -/
def retryWithBackoff (body : Except PyExc (Bool × String)) : Bool × String :=
  match body with
  | .ok r => r
  | .error e =>
    if isTransient e then (false, "Retries exhausted: " ++ e.message)
    else (false, e.message)

/-! ## GitHub platform (`platforms/github/platform.py`) -/

/-- The `github` section of the configuration dictionary:
`config.get('github', {}).get(...)`. -/
structure GitHubConfig where
  repo : Option String := none
  method : Option String := none
  branch : Option String := none
deriving Repr, DecidableEq

/-- The mutable attributes of a `GitHubPlatform` object that the embedded
operations read or write (`repo_obj`/`env_management` presence is tracked as
a Boolean; `deployment.repo_name` is the name held by the `GitHubDeployment`
sub-object). -/
structure GitHubState where
  repoName : Option String
  method : String
  branch : String
  token : Option String
  /-- `auto_creation is not None` -/
  autoCreation : Bool
  /-- `repo_obj is not None` -/
  repoObj : Bool
  /-- `self.deployment.repo_name` -/
  deploymentRepoName : Option String
deriving Repr, DecidableEq

/-- `GitHubPlatform.__init__`: resolves the token once, at construction, and
builds the sub-components from it. -/
def githubInit (cfg : GitHubConfig) (fs env : String → Option String)
    (cliAvailable : Bool) (cliToken : Option String) : GitHubState :=
  let token := githubGetToken fs env cliAvailable cliToken
  { repoName := cfg.repo
    method := cfg.method.getD "branch"
    branch := cfg.branch.getD "gh-pages"
    token := token
    autoCreation := truthy token
    repoObj := false
    deploymentRepoName := cfg.repo }

/-- The external calls made by `GitHubPlatform.validate_credentials`.  Calls
that catch all their own exceptions in the source (`auto_create_repository`)
are total oracles; the rest may raise. -/
structure GitHubValEnv where
  /-- `os.path.basename(os.getcwd())`; `os.getcwd` may raise `OSError` -/
  cwdBasename : Except PyExc String
  /-- `auto_creation.auto_create_repository(project_name)`:
      `(success, message, repo_full_name)`; total (catch-all in the source) -/
  autoCreate : String → Bool × String × Option String
  /-- `github_client.get_user()`, yielding `user.login`; may raise -/
  getUser : Except PyExc String
  /-- `github_client.get_repo(repo_name)`; may raise -/
  getRepo : Except PyExc Unit
  /-- `repo_obj.get_collaborator_permission(user.login)`; may raise -/
  collaboratorPermission : Except PyExc String

/-- `validate_credentials` lines 93-101: auto-create the repository when
auto-creation is available and no repository name is configured. -/
def githubValidateStep1 (st : GitHubState) (e : GitHubValEnv) :
    Except PyExc GitHubState :=
  if st.autoCreation ∧ ¬ truthy st.repoName then
    match e.cwdBasename with
    | .error ex => .error ex
    | .ok projectName =>
      let (success, _message, repoFullName) := e.autoCreate projectName
      if success ∧ truthy repoFullName then
        .ok { st with repoName := repoFullName
                      deploymentRepoName := repoFullName }
      else .ok st
  else .ok st

/-- `validate_credentials` lines 106-131: the `try` block (client
construction, user fetch, repository fetch, permission check with its
ignored fallback). -/
def githubValidateTryBlock (st1 : GitHubState) (e : GitHubValEnv) :
    Except PyExc (Bool × String) × GitHubState :=
  match e.getUser with
  | .error ex => (.error ex, st1)
  | .ok login =>
    match e.getRepo with
    | .error ex => (.error ex, st1)
    | .ok _ =>
      let st2 := { st1 with repoObj := true }
      match e.collaboratorPermission with
      | .ok perms =>
        if perms ≠ "admin" ∧ perms ≠ "write" then
          (.ok (false, handleAuthErrorMessage "github"
            "Insufficient repository permissions"), st2)
        else
          (.ok (true, "GitHub credentials valid for user: " ++ login), st2)
      | .error _ =>
        -- fallback `get_contents("README.md")`: result and any exception
        -- are both ignored
        (.ok (true, "GitHub credentials valid for user: " ++ login), st2)

/-- `validate_credentials` lines 133-138: the `except` clauses around the
`try` block (connection errors, timeouts and `GithubException` become
`(false, message)` results; everything else keeps propagating). -/
def githubValidateHandlers
    (tb : Except PyExc (Bool × String) × GitHubState) :
    Except PyExc (Bool × String) × GitHubState :=
  match tb with
  | (.error (.connectionError m), stE) =>
    (.ok (false, handleAuthErrorMessage "github"
      ("Network error: " ++ m)), stE)
  | (.error (.timeout m), stE) =>
    (.ok (false, handleAuthErrorMessage "github"
      ("Network error: " ++ m)), stE)
  | (.error (.githubException status m), stE) =>
    (.ok (false, handleGithubApiErrorMessage status m), stE)
  | other => other

/-- `validate_credentials` lines 103-138: the part after the auto-creation
step, given the state it produced. -/
def githubValidateAfterStep1 (st1 : GitHubState) (e : GitHubValEnv) :
    Except PyExc (Bool × String) × GitHubState :=
  if ¬ truthy st1.repoName then
    (.ok (false, "Repository name not configured"), st1)
  else
    githubValidateHandlers (githubValidateTryBlock st1 e)

/-- The body of `GitHubPlatform.validate_credentials` (lines 86-138), without
the `@retry_with_backoff` decorator.  Returns the `(bool, message)` result or
the exception the body lets escape, together with the platform state after
the call (attribute mutations persist even when an exception escapes). -/
def githubValidateBody (st : GitHubState) (e : GitHubValEnv) :
    Except PyExc (Bool × String) × GitHubState :=
  if ¬ truthy st.token then
    (.ok (false, handleAuthErrorMessage "github" "No token provided"), st)
  else
    match githubValidateStep1 st e with
    | .error ex => (.error ex, st)
    | .ok st1 => githubValidateAfterStep1 st1 e

/-- `GitHubPlatform.validate_credentials` with its `@retry_with_backoff`
decorator applied (the decorator, modelled from the spec, converts every
escaping exception into a `(false, message)` value). -/
def githubValidateCredentials (st : GitHubState) (e : GitHubValEnv) :
    Except PyExc ((Bool × String) × GitHubState) :=
  .ok (retryWithBackoff (githubValidateBody st e).1,
       (githubValidateBody st e).2)

/-- `GitHubPlatform.prepare_deployment`. -/
def githubPrepareDeployment (st : GitHubState) (e : GitHubValEnv) :
    Except PyExc ((Bool × String) × GitHubState) :=
  match githubValidateCredentials st e with
  | .error ex => .error ex
  | .ok ((valid, message), st') =>
    if ¬ valid then .ok ((false, message), st')
    else if ¬ st'.repoObj then .ok ((false, "Repository not accessible"), st')
    else .ok ((true, "Ready for deployment"), st')

/-- External calls of `GitHubPlatform.get_deployment_status`. -/
structure GitHubStatusEnv where
  valEnv : GitHubValEnv
  /-- `repo_obj.get_pages()`, yielding `(pages.status, pages.html_url)`;
      may raise -/
  getPages : Except PyExc (String × Option String)

/-- Body of `GitHubPlatform.get_deployment_status` (lines 142-168), inside
the outer `try`. -/
def githubGetDeploymentStatusBody (st : GitHubState) (e : GitHubStatusEnv) :
    Except PyExc DeploymentStatus :=
    -- lines 143-151: initialize credentials when `repo_obj` is unset
    let init : Except PyExc (Option DeploymentStatus × GitHubState) :=
      if ¬ st.repoObj then
        match githubValidateCredentials st e.valEnv with
        | .error ex => .error ex
        | .ok ((valid, _), st') =>
          if ¬ valid then
            .ok (some { status := "error", message := "Invalid credentials",
                        url := none }, st')
          else .ok (none, st')
      else .ok (none, st)
    match init with
    | .error ex => .error ex
    | .ok (some result, _) => .ok result
    | .ok (none, st') =>
      if ¬ st'.repoObj then
        -- `self.repo_obj.get_pages()` with `repo_obj = None`: AttributeError
        .error (.other "AttributeError"
          "NoneType object has no attribute get_pages")
      else
        match e.getPages with
        | .ok (pagesStatus, htmlUrl) =>
          .ok { status := if pagesStatus = "built" then "deployed"
                          else "building",
                message := "GitHub Pages status: " ++ pagesStatus,
                url := htmlUrl }
        | .error (.githubException status m) =>
          if status = 404 then
            .ok { status := "not_deployed",
                  message := "GitHub Pages not enabled", url := none }
          else .error (.githubException status m)
        | .error ex => .error ex

/-- `GitHubPlatform.get_deployment_status` (lines 140-175): the body wrapped
in the outer `except Exception` handler; `get_status` delegates to it
unchanged. -/
def githubGetDeploymentStatus (st : GitHubState) (e : GitHubStatusEnv) :
    Except PyExc DeploymentStatus :=
  match githubGetDeploymentStatusBody st e with
  | .ok r => .ok r
  | .error ex =>
    .ok { status := "error",
          message := "Failed to get deployment status: " ++ ex.message,
          url := none }

/-! ## GitHub deployment execution (`platforms/github/deployment.py`) -/

/-- A top-level directory entry (`Path.iterdir()` result). -/
structure Entry where
  name : String
  isDir : Bool
deriving Repr, DecidableEq

/-- `deployment.py` line 61: `protected_items = {'.git', output_dir,
'.gitignore', 'CNAME'}`. -/
def protectedItems (outputDir : String) : List String :=
  [".git", outputDir, ".gitignore", "CNAME"]

/-- `deployment.py` lines 63-72: remove every top-level entry whose name is
not in the allow-list; `removeOk name = false` models an
`OSError`/`PermissionError` from the removal, which the source logs and
skips (`continue`). -/
def clearWorkingTree (entries : List Entry) (outputDir : String)
    (removeOk : String → Bool) : List Entry :=
  entries.filter (fun e =>
    (protectedItems outputDir).contains e.name || !(removeOk e.name))

/-- `deployment.py` lines 74-86: copy each build-output entry into the
working-tree root, replacing an existing entry of the same name; a copy
failure (`copyOk name = false`) is logged and skipped. -/
def copyBuildOutput (tree : List Entry) (outputEntries : List Entry)
    (copyOk : String → Bool) : List Entry :=
  tree.filter (fun t =>
      !(outputEntries.any (fun o => o.name = t.name && copyOk o.name)))
    ++ outputEntries.filter (fun o => copyOk o.name)

/-- Is the exception a `git.GitCommandError`? -/
def isGitCommandError : PyExc → Bool
  | .gitCommandError _ => true
  | _ => false

/-- The external effects of `GitHubDeployment.deploy_to_branch`. -/
structure BranchDeployEnv where
  /-- `output_path.exists()` -/
  outputExists : Bool
  /-- `Repo(project_path)` raised (bare `except`) -/
  repoOpenFails : Bool
  /-- `Repo.init(project_path)` (only reached when opening failed) -/
  repoInit : Except PyExc Unit
  /-- is `branch` among the local ref names (line 48) -/
  branchInRefs : Bool
  /-- `repo.git.checkout(branch)` -/
  checkoutExisting : Except PyExc Unit
  /-- `repo.git.checkout('-b', branch)` -/
  checkoutNew : Except PyExc Unit
  /-- `repo.git.checkout('-b', branch, 'origin/<branch>')` -/
  checkoutRemote : Except PyExc Unit
  /-- `repo.git.checkout('--orphan', branch)` -/
  checkoutOrphan : Except PyExc Unit
  /-- `project_path.iterdir()` -/
  projectEntries : List Entry
  /-- removal success per entry name -/
  removeOk : String → Bool
  /-- `output_path.iterdir()` -/
  outputEntries : List Entry
  /-- copy success per entry name -/
  copyOk : String → Bool
  /-- `repo.git.add('.')` -/
  gitAdd : Except PyExc Unit
  /-- `repo.git.commit('-m', 'Deploy to GitHub Pages')` -/
  gitCommit : Except PyExc Unit
  /-- `repo.remote('origin')` + `origin.push(..., force=True)` -/
  gitPush : Except PyExc Unit

/-- `deployment.py` lines 45-58: checkout-or-create the deployment branch,
falling back to a remote-tracking checkout and then to an orphan branch on
`GitCommandError`; any other exception propagates. -/
def checkoutCascade (e : BranchDeployEnv) : Except PyExc Unit :=
  match (if e.branchInRefs then e.checkoutExisting else e.checkoutNew) with
  | .ok _ => .ok ()
  | .error ex =>
    if isGitCommandError ex then
      match e.checkoutRemote with
      | .ok _ => .ok ()
      | .error ex2 =>
        if isGitCommandError ex2 then e.checkoutOrphan else .error ex2
    else .error ex

/-- Body of `GitHubDeployment.deploy_to_branch` (lines 26-121), inside the
outer `try`.  The working tree is cleared (allow-list protected) and the
build output is then copied to the root, before staging and committing. -/
def deployToBranchBody (deploymentRepoName : Option String) (branch : String)
    (projectPath outputDir : String) (e : BranchDeployEnv) :
    Except PyExc DeploymentResult :=
  if ¬ e.outputExists then
    .ok { success := false
          message := handleBuildErrorMessage
            ("Build output directory not found: " ++ projectPath ++ "/"
              ++ outputDir)
          url := none, deploymentId := none }
  else
    match (if e.repoOpenFails then e.repoInit else .ok ()) with
    | .error ex => .error ex
    | .ok _ =>
      match checkoutCascade e with
      | .error ex => .error ex
      | .ok _ =>
        let cleared := clearWorkingTree e.projectEntries outputDir e.removeOk
        let _tree := copyBuildOutput cleared e.outputEntries e.copyOk
        match e.gitAdd with
        | .error ex => .error ex
        | .ok _ =>
          match e.gitCommit with
          | .error (.gitCommandError m) =>
            -- lines 91-101: `except GitCommandError`
            if pyContains m "nothing to commit" then
              .ok { success := true, message := "No changes to deploy"
                    url := some (generatePagesUrl deploymentRepoName)
                    deploymentId := none }
            else .error (.gitCommandError m)
          | .error ex => .error ex
          | .ok _ =>
            match e.gitPush with
            | .error ex =>
              .ok { success := false
                    message := handleGitErrorMessage
                      ("Failed to push to remote: " ++ ex.message)
                    url := none, deploymentId := none }
            | .ok _ =>
              .ok { success := true
                    message := "Successfully deployed to GitHub Pages (branch: "
                      ++ branch ++ ")"
                    url := some (generatePagesUrl deploymentRepoName)
                    deploymentId := none }

/-- `GitHubDeployment.deploy_to_branch`: the body wrapped in the outer
`except Exception` handler (lines 123-130). -/
def deployToBranch (deploymentRepoName : Option String) (branch : String)
    (projectPath outputDir : String) (e : BranchDeployEnv) :
    Except PyExc DeploymentResult :=
  match deployToBranchBody deploymentRepoName branch projectPath outputDir e with
  | .ok r => .ok r
  | .error ex =>
    .ok { success := false
          message := handleGitErrorMessage ("Deployment failed: " ++ ex.message)
          url := none, deploymentId := none }

/-- The external effects of `GitHubDeployment.deploy_to_docs_folder`
(coarse: no claim inspects the docs strategy beyond its error containment). -/
structure DocsDeployEnv where
  /-- `output_path.exists()` -/
  outputExists : Bool
  /-- `shutil.rmtree(docs_path)` + `shutil.copytree(...)` -/
  copyOps : Except PyExc Unit
  /-- `Repo(project_path)` (no init fallback in this method) -/
  repoOpen : Except PyExc Unit
  /-- `repo.git.add('docs/')` + `repo.git.commit(...)` -/
  addCommit : Except PyExc Unit
  /-- `repo.remote('origin')` + `origin.push()` (not forced) -/
  push : Except PyExc Unit

/-- Body of `GitHubDeployment.deploy_to_docs_folder` (lines 132-166), inside
the outer `try`. -/
def deployToDocsFolderBody (deploymentRepoName : Option String)
    (projectPath outputDir : String) (e : DocsDeployEnv) :
    Except PyExc DeploymentResult :=
  if ¬ e.outputExists then
      .ok { success := false
            message := handleBuildErrorMessage
              ("Build output directory not found: " ++ projectPath ++ "/"
                ++ outputDir)
            url := none, deploymentId := none }
    else
      match e.copyOps with
      | .error ex => .error ex
      | .ok _ =>
        match e.repoOpen with
        | .error ex => .error ex
        | .ok _ =>
          match e.addCommit with
          | .error ex => .error ex
          | .ok _ =>
            match e.push with
            | .error ex => .error ex
            | .ok _ =>
              .ok { success := true
                    message :=
                      "Successfully deployed to GitHub Pages (docs folder)"
                    url := some (generatePagesUrl deploymentRepoName)
                    deploymentId := none }

/-- `GitHubDeployment.deploy_to_docs_folder`: the body wrapped in the outer
`except Exception` handler (lines 168-175). -/
def deployToDocsFolder (deploymentRepoName : Option String)
    (projectPath outputDir : String) (e : DocsDeployEnv) :
    Except PyExc DeploymentResult :=
  match deployToDocsFolderBody deploymentRepoName projectPath outputDir e with
  | .ok r => .ok r
  | .error ex =>
    .ok { success := false
          message := handleGitErrorMessage ("Deployment failed: " ++ ex.message)
          url := none, deploymentId := none }

/-- `GitHubPlatform.execute_deployment`: dispatch on the configured method. -/
def githubExecuteDeployment (st : GitHubState) (projectPath outputDir : String)
    (eBranch : BranchDeployEnv) (eDocs : DocsDeployEnv) :
    Except PyExc DeploymentResult :=
  if st.method = "branch" then
    deployToBranch st.deploymentRepoName st.branch projectPath outputDir eBranch
  else if st.method = "docs" then
    deployToDocsFolder st.deploymentRepoName projectPath outputDir eDocs
  else
    .ok { success := false
          message := "Unknown deployment method: " ++ st.method
          url := none, deploymentId := none }

/-! ## Netlify platform (`platforms/netlify/platform.py`,
`platforms/netlify/api_integration.py`) -/

/-- The `netlify` section of the configuration dictionary. -/
structure NetlifyConfig where
  siteId : Option String := none
  customDomain : Option String := none
  useCli : Option Bool := none
deriving Repr, DecidableEq

/-- The mutable attributes of a `NetlifyPlatform` object that the embedded
operations read or write. -/
structure NetlifyState where
  siteId : Option String
  customDomain : Option String
  useCli : Bool
  token : Option String
  /-- `api_integration is not None` -/
  apiIntegration : Bool
  /-- `auto_creation is not None` -/
  autoCreation : Bool
deriving Repr, DecidableEq

/-- `NetlifyPlatform.__init__`. -/
def netlifyInit (cfg : NetlifyConfig) (fs env : String → Option String)
    (cliAvailable : Bool) (cliToken : Option String) : NetlifyState :=
  let token := netlifyGetToken fs env cliAvailable cliToken
  { siteId := cfg.siteId
    customDomain := cfg.customDomain
    useCli := cfg.useCli.getD true
    token := token
    apiIntegration := truthy token
    autoCreation := truthy token }

/-- The external calls made by `NetlifyPlatform.validate_credentials`.  The
credential sources appear here because, unlike GitHub, Netlify re-resolves
the token inside the call (line 64). -/
structure NetlifyValEnv where
  fs : String → Option String
  env : String → Option String
  cliAvailable : Bool
  cliToken : Option String
  /-- `api_integration.validate_token()`: `(valid, message)`; total
      (catch-all in the source); the `user_data` component is unused -/
  validateToken : Bool × String
  /-- `os.path.basename(os.getcwd())`; may raise -/
  cwdBasename : Except PyExc String
  /-- `auto_creation.auto_create_site(name, ".", custom_domain)`:
      `(success, message, site_id)`; total (catch-all in the source) -/
  autoCreateSite : String → Bool × String × Option String

/-- Body of `NetlifyPlatform.validate_credentials` (lines 60-94), without the
decorator.  The first statement re-resolves the token from the three
sources. -/
def netlifyValidateBody (st : NetlifyState) (e : NetlifyValEnv) :
    Except PyExc (Bool × String) × NetlifyState :=
  -- line 64: `self.token = self._get_token()`
  let st := { st with
    token := netlifyGetToken e.fs e.env e.cliAvailable e.cliToken }
  if ¬ truthy st.token then
    (.ok (false, handleAuthErrorMessage "netlify" "No token provided"), st)
  else
    -- lines 71-74: (re-)initialize components
    let st := { st with apiIntegration := true, autoCreation := true }
    let (valid, message) := e.validateToken
    if ¬ valid then (.ok (false, message), st)
    else
      -- lines 82-92: auto-create the site if needed
      if st.autoCreation ∧ ¬ truthy st.siteId then
        match e.cwdBasename with
        | .error ex => (.error ex, st)
        | .ok siteName =>
          let (success, siteMessage, siteId) := e.autoCreateSite siteName
          if success ∧ truthy siteId then
            (.ok (true, message), { st with siteId := siteId })
          else if ¬ success then
            (.ok (false, "Site creation failed: " ++ siteMessage), st)
          else (.ok (true, message), st)
      else (.ok (true, message), st)

/-- `NetlifyPlatform.validate_credentials` with its `@retry_with_backoff`
decorator applied (modelled from the spec). -/
def netlifyValidateCredentials (st : NetlifyState) (e : NetlifyValEnv) :
    Except PyExc ((Bool × String) × NetlifyState) :=
  .ok (retryWithBackoff (netlifyValidateBody st e).1,
       (netlifyValidateBody st e).2)

/-- `NetlifyPlatform.prepare_deployment`. -/
def netlifyPrepareDeployment (st : NetlifyState) (e : NetlifyValEnv)
    (buildPathExists : Bool) (projectPath outputDir : String) :
    Except PyExc ((Bool × String) × NetlifyState) :=
  match netlifyValidateCredentials st e with
  | .error ex => .error ex
  | .ok ((valid, message), st') =>
    if ¬ valid then .ok ((false, message), st')
    else if ¬ buildPathExists then
      .ok ((false, "Build output directory not found: " ++ projectPath
        ++ "/" ++ outputDir), st')
    else if ¬ truthy st'.siteId then
      .ok ((false, "No Netlify site configured"), st')
    else .ok ((true, "Ready for deployment"), st')

/-- The external effects of `NetlifyAPIIntegration.deploy_site` /
`_create_deployment_zip`. -/
structure ZipEnv where
  /-- `build_path.exists()` -/
  buildDirExists : Bool
  /-- writing the build entries into the zip archive (lines 169-174); may
      raise after the temporary file was already created with
      `delete=False` -/
  zipWrite : Except PyExc Unit
  /-- the upload `try` block (open the zip, POST it, parse the JSON
      response): its `(success, message, url)` return or the exception it
      raises -/
  uploadBlock : Except PyExc (Bool × String × Option String)
  /-- `os.unlink(zip_path)` in the `finally` block -/
  unlink : Except PyExc Unit

/-- `NetlifyAPIIntegration.deploy_site` (lines 69-105) together with
`_create_deployment_zip` (lines 164-176).  Returns the `(success, message,
url)` triple and whether the temporary zip bundle still exists on disk after
the call returns. -/
def netlifyApiDeploySite (projectPath buildDir : String) (e : ZipEnv) :
    (Bool × String × Option String) × Bool :=
  if ¬ e.buildDirExists then
    ((false, "Build directory not found: " ++ projectPath ++ "/" ++ buildDir,
      none), false)
  else
    match e.zipWrite with
    | .error ex =>
      -- a zip-writing failure propagates out of `_create_deployment_zip`
      -- before the `try/finally` is entered: the outer handler returns a
      -- failure and the temporary file stays on disk
      ((false, "Deployment error: " ++ ex.message, none), true)
    | .ok _ =>
      match e.unlink with
      | .ok _ =>
        -- the `finally` removed the bundle; surface the upload outcome
        match e.uploadBlock with
        | .ok r => (r, false)
        | .error ex => ((false, "Deployment error: " ++ ex.message, none),
            false)
      | .error ex =>
        -- `os.unlink` itself raised: the exception supersedes the upload
        -- outcome, the outer handler reports it, the bundle stays on disk
        ((false, "Deployment error: " ++ ex.message, none), true)

/-- The external calls of `NetlifyPlatform.execute_deployment`. -/
structure NetlifyExecEnv where
  /-- `cli_integration.is_cli_available()` -/
  cliAvailable : Bool
  /-- `cli_integration.link_site(site_id, project_path)`; total -/
  linkSite : Bool × String
  /-- `cli_integration.deploy_site(project_path, output_dir)`; total -/
  cliDeploy : Bool × String × Option String
  /-- effects of the API path -/
  zip : ZipEnv

/-- Body of `NetlifyPlatform.execute_deployment` (lines 115-130), covering
`_deploy_via_cli` and `_deploy_via_api`, inside the outer `try`. -/
def netlifyExecuteDeploymentBody (st : NetlifyState)
    (projectPath outputDir : String) (e : NetlifyExecEnv) :
    Except PyExc DeploymentResult :=
  if st.useCli ∧ e.cliAvailable then
      -- `_deploy_via_cli`
      if truthy st.siteId then
        let (linkSuccess, linkMessage) := e.linkSite
        if ¬ linkSuccess then
          .ok { success := false
                message := "Failed to link site: " ++ linkMessage
                url := none, deploymentId := none }
        else
          let (success, message, url) := e.cliDeploy
          .ok { success := success, message := message, url := url
                deploymentId := none }
      else
        let (success, message, url) := e.cliDeploy
        .ok { success := success, message := message, url := url
              deploymentId := none }
    else if st.apiIntegration ∧ truthy st.siteId then
      -- `_deploy_via_api` → `api_integration.deploy_site`
      let ((success, message, url), _zipRemains) :=
        netlifyApiDeploySite projectPath outputDir e.zip
      .ok { success := success, message := message, url := url
            deploymentId := none }
  else
    .ok { success := false
          message := "No deployment method available or site not configured"
          url := none, deploymentId := none }

/-- `NetlifyPlatform.execute_deployment` (lines 113-174): the body wrapped in
the outer `except Exception` handler. -/
def netlifyExecuteDeployment (st : NetlifyState)
    (projectPath outputDir : String) (e : NetlifyExecEnv) :
    Except PyExc DeploymentResult :=
  match netlifyExecuteDeploymentBody st projectPath outputDir e with
  | .ok r => .ok r
  | .error ex =>
    .ok { success := false, message := "Deployment failed: " ++ ex.message
          url := none, deploymentId := none }

/-- The raw HTTP outcome of `GET /sites/{id}/deploys?per_page=1`. -/
inductive HttpDeploysResponse where
  /-- status code 200 with the (possibly empty) list of deploy records -/
  | ok (deploys : List (Option String × Option String))
  /-- any non-200 status code -/
  | httpError (code : Nat)
  /-- `requests.get` (or JSON parsing) raised -/
  | exn (msg : String)
deriving Repr, DecidableEq

/-- `NetlifyAPIIntegration.get_deployment_status` (lines 140-162): total
(catch-all).  A deploy record is `(state, url)` where a missing `state` key
defaults to `"unknown"` via `.get('state', 'unknown')`. -/
def netlifyApiGetDeploymentStatus (r : HttpDeploysResponse) :
    Bool × String × Option String :=
  match r with
  | .ok [] => (true, "no_deploys", none)
  | .ok ((state, url) :: _) => (true, state.getD "unknown", url)
  | .httpError _ => (false, "error", none)
  | .exn _ => (false, "error", none)

/-- `platform.py` lines 182-188: `status_map.get(status, status)` — the four
recognized raw values are mapped, every other raw value is passed through
verbatim as the status. -/
def netlifyStatusMap (raw : String) : String :=
  if raw = "ready" then "deployed"
  else if raw = "building" then "building"
  else if raw = "error" then "error"
  else if raw = "no_deploys" then "not_deployed"
  else raw

/-- `NetlifyPlatform.get_deployment_status` (lines 176-212); `get_status`
delegates to it unchanged.  The whole body sits inside `try/except
Exception`; the embedded body is total, so the handler is structurally
unreachable. -/
def netlifyGetDeploymentStatus (st : NetlifyState)
    (resp : HttpDeploysResponse) : Except PyExc DeploymentStatus :=
  if truthy st.siteId ∧ st.apiIntegration then
    let (success, status, url) := netlifyApiGetDeploymentStatus resp
    if success then
      .ok { status := netlifyStatusMap status
            message := "Netlify deployment: " ++ status
            url := url }
    else
      .ok { status := "error", message := "Failed to get deployment status"
            url := none }
  else
    .ok { status := "not_deployed", message := "No Netlify site configured"
          url := none }

/-- `NetlifyPlatform.get_url`: `get_site_info` is total in the source
(catch-all); its result is `(success, site_data, message)` where `site_data`
is the optional response record carrying the `url` attribute. -/
def netlifyGetUrl (st : NetlifyState)
    (getSiteInfo : Bool × Option (Option String) × String) : Option String :=
  if truthy st.siteId ∧ st.apiIntegration then
    let (success, siteData, _) := getSiteInfo
    if success then
      match siteData with
      | some urlField => urlField
      | none => none
    else none
  else none

/-! ## Theorems -/

theorem splitCharList_no_sep (sep : Char) (u : List Char)
    (hu : sep ∉ u) : splitCharList sep u = [u] := by
  induction u with
  | nil => rfl
  | cons c cs ih =>
    have hc : c ≠ sep := fun h => hu (h ▸ List.mem_cons_self c cs)
    have hcs : sep ∉ cs := fun h => hu (List.mem_cons_of_mem _ h)
    simp [splitCharList, hc, ih hcs]

/-- Splitting `u ++ sep :: v` where neither side contains the separator
yields exactly the two segments. -/
theorem splitCharList_append (sep : Char) (u v : List Char)
    (hu : sep ∉ u) (hv : sep ∉ v) :
    splitCharList sep (u ++ sep :: v) = [u, v] := by
  induction u with
  | nil => simp [splitCharList, splitCharList_no_sep sep v hv]
  | cons c cs ih =>
    have hc : c ≠ sep := fun h => hu (h ▸ List.mem_cons_self c cs)
    have hcs : sep ∉ cs := fun h => hu (List.mem_cons_of_mem _ h)
    simp [splitCharList, hc, ih hcs]

theorem string_mk_toList (s : String) : String.mk s.toList = s := by
  cases s; rfl

theorem string_toList_append (a b : String) :
    (a ++ b).toList = a.toList ++ b.toList := by
  cases a; cases b; rfl

/-- `pySplit` on `u ++ "/" ++ r` where neither part contains `'/'`. -/
theorem pySplit_slash (u r : String)
    (hu : ('/' : Char) ∉ u.toList) (hr : ('/' : Char) ∉ r.toList) :
    pySplit '/' (u ++ "/" ++ r) = [u, r] := by
  have hlist : (u ++ "/" ++ r).toList = u.toList ++ '/' :: r.toList := by
    rw [string_toList_append, string_toList_append]
    have hslash : "/".toList = ['/'] := by decide
    rw [hslash]
    simp
  unfold pySplit
  rw [hlist, splitCharList_append '/' u.toList r.toList hu hr]
  simp [string_mk_toList]

/-- A string containing a slash is nonempty. -/
theorem slash_name_ne_empty (u r : String) : u ++ "/" ++ r ≠ "" := by
  intro h
  have h2 : (u ++ "/" ++ r).toList = ("" : String).toList :=
    congrArg String.toList h
  rw [string_toList_append, string_toList_append] at h2
  have hslash : "/".toList = ['/'] := by decide
  have hempty : ("" : String).toList = [] := by decide
  rw [hslash, hempty] at h2
  simp at h2

/-- C10: `GitHubPlatform.get_url` is a pure function of the configured
repository name: `None` for an unset (or empty) name and for any name that
does not split into exactly two `/`-separated parts; the apex URL for
`owner/owner.github.io`; and `https://{owner}.github.io/{name}` for every
other well-formed `owner/name`. -/
theorem C10_github_get_url (u r : String)
    (hu : ('/' : Char) ∉ u.toList) (hr : ('/' : Char) ∉ r.toList) :
    githubGetUrl none = none ∧
    githubGetUrl (some "") = none ∧
    (∀ name : String, (pySplit '/' name).length ≠ 2 →
      githubGetUrl (some name) = none) ∧
    (r = u ++ ".github.io" →
      githubGetUrl (some (u ++ "/" ++ r)) =
        some ("https://" ++ u ++ ".github.io")) ∧
    (r ≠ u ++ ".github.io" →
      githubGetUrl (some (u ++ "/" ++ r)) =
        some ("https://" ++ u ++ ".github.io/" ++ r)) := by
  refine ⟨rfl, rfl, ?_, ?_, ?_⟩
  · intro name hlen
    unfold githubGetUrl
    by_cases hempty : name = ""
    · simp [hempty]
    · simp only [hempty, if_false]
      cases hsp : pySplit '/' name with
      | nil => rfl
      | cons a t =>
        cases t with
        | nil => rfl
        | cons b t2 =>
          cases t2 with
          | nil => exact absurd (by rw [hsp]; rfl) hlen
          | cons c t3 => rfl
  · intro hio
    unfold githubGetUrl
    simp only [slash_name_ne_empty u r, if_false]
    rw [pySplit_slash u r hu hr]
    simp [hio]
  · intro hio
    unfold githubGetUrl
    simp only [slash_name_ne_empty u r, if_false]
    rw [pySplit_slash u r hu hr]
    simp [hio]

/-- Witness for C10 at a concrete repository name. -/
theorem C10_github_get_url_witness :
    githubGetUrl (some ("alice" ++ "/" ++ "proj")) =
      some ("https://" ++ "alice" ++ ".github.io/" ++ "proj") :=
  (C10_github_get_url "alice" "proj" (by decide) (by decide)).2.2.2.2 (by decide)

theorem generateSuggestedNameLoop_all_collide (baseName : String) :
    ∀ (fuel counter : Nat),
      generateSuggestedNameLoop (fun _ => true) baseName fuel counter = none := by
  intro fuel
  induction fuel with
  | zero => intro _; rfl
  | succ n ih => intro counter; simpa [generateSuggestedNameLoop] using ih (counter + 1)

/-- C6: the candidate-name probing loop is NOT bounded: against a remote side
that reports every candidate name as colliding, `_generate_suggested_name`
never returns, however many probe attempts it is allowed (the spec itself
flags the missing bound as a source defect). -/
theorem C6_name_probing_unbounded (projectName : String) (fuel : Nat) :
    generateSuggestedName (fun _ => true) projectName fuel = none := by
  simp [generateSuggestedName, generateSuggestedNameLoop_all_collide]

/-- C9: the Netlify/Vercel/Railway token-file source reads exactly the file
that `auth setup` writes and `auth clear` removes, but the GitHub platform
reads `.deployx_token` while the auth commands write and remove
`.deployx_github_token`: a token persisted for GitHub by `auth setup` is not
found by `GitHubPlatform._get_token` (no CLI, no environment variable). -/
theorem C9_github_token_file_mismatch :
    authTokenFileName "github" = ".deployx_github_token" ∧
    githubTokenFileName = ".deployx_token" ∧
    authTokenFileName "github" ≠ githubTokenFileName ∧
    githubGetToken
      (fun n => if n = authTokenFileName "github" then some "tok123" else none)
      (fun _ => none) false none = none ∧
    authTokenFileName "netlify" = netlifyTokenFileName ∧
    authTokenFileName "vercel" = vercelTokenFileName ∧
    authTokenFileName "railway" = railwayTokenFileName ∧
    netlifyGetToken
      (fun n => if n = authTokenFileName "netlify" then some "tok123" else none)
      (fun _ => none) false none = some "tok123" := by
  refine ⟨rfl, rfl, by decide, ?_, rfl, rfl, rfl, ?_⟩
  · simp [githubGetToken, getTokenFrom, githubTokenFileName, authTokenFileName]
  · simp [netlifyGetToken, getTokenFrom, netlifyTokenFileName, authTokenFileName]
    decide

/-- C1: the canonical-status invariant fails on the code.  For a Netlify site
whose latest deploy reports the unrecognized raw state `"weird-state"`,
`get_deployment_status` substitutes the raw value for `status`
(`status_map.get(status, status)`) instead of normalizing it to `"unknown"`
(the raw value is also kept inside `message`, as the claim asks); moreover
the recognized raw value `"ready"` is mapped to `"deployed"`, and GitHub
reports `"deployed"` for built pages — a status outside the canonical five as
well. -/
theorem C1_raw_status_substituted_for_status :
    netlifyGetDeploymentStatus
      { siteId := some "site-1", customDomain := none, useCli := true
        token := some "tok", apiIntegration := true, autoCreation := true }
      (.ok [(some "weird-state", some "https://x.netlify.app")])
      = .ok { status := "weird-state"
              message := "Netlify deployment: weird-state"
              url := some "https://x.netlify.app", lastUpdated := none } ∧
    "weird-state" ∉ ["unknown", "not_deployed", "building", "ready", "error"] ∧
    pyContains "Netlify deployment: weird-state" "weird-state" = true ∧
    netlifyStatusMap "ready" = "deployed" ∧
    githubGetDeploymentStatus
      { repoName := some "alice/proj", method := "branch", branch := "gh-pages"
        token := some "tok", autoCreation := true, repoObj := true
        deploymentRepoName := some "alice/proj" }
      { valEnv :=
          { cwdBasename := .ok "proj"
            autoCreate := fun _ => (false, "", none)
            getUser := .ok "alice", getRepo := .ok ()
            collaboratorPermission := .ok "admin" }
        getPages := .ok ("built", some "https://alice.github.io/proj") }
      = .ok { status := "deployed"
              message := "GitHub Pages status: built"
              url := some "https://alice.github.io/proj"
              lastUpdated := none } ∧
    "deployed" ∉ ["unknown", "not_deployed", "building", "ready", "error"] := by
  refine ⟨rfl, by decide, by decide, by decide, rfl, by decide⟩

/-- C2: credential resolution tries the CLI tool, then the token file, then
the environment variable, in this fixed order, returning the first non-empty
value with no merging; when the CLI and file sources yield nothing the
environment value is returned verbatim, so when all three yield nothing the
result is `none`; and `validate_credentials` converts an absent token into a
`(false, "<backend> token not found")` result rather than raising. -/
theorem C2_credential_resolution_order
    (fs env : String → Option String) (cliAvailable : Bool)
    (cliToken : Option String) (fileName envName : String) :
    (∀ t, cliAvailable = true → cliToken = some t → t ≠ "" →
      getTokenFrom fs env cliAvailable cliToken fileName envName = some t) ∧
    ((cliAvailable = false ∨ cliToken = none ∨ cliToken = some "") →
      ∀ c, fs fileName = some c → pyStrip c ≠ "" →
        getTokenFrom fs env cliAvailable cliToken fileName envName
          = some (pyStrip c)) ∧
    ((cliAvailable = false ∨ cliToken = none ∨ cliToken = some "") →
      (fs fileName = none ∨ (∀ c, fs fileName = some c → pyStrip c = "")) →
        getTokenFrom fs env cliAvailable cliToken fileName envName
          = env envName) ∧
    (∀ (st : GitHubState) (e : GitHubValEnv), ¬ truthy st.token →
      githubValidateCredentials st e
        = .ok ((false, handleAuthErrorMessage "github" "No token provided"),
            st)) ∧
    handleAuthErrorMessage "github" "No token provided"
      = "github token not found" := by
  have hcli : (cliAvailable = false ∨ cliToken = none ∨ cliToken = some "") →
      (if cliAvailable then
        match cliToken with
        | some t => if t ≠ "" then some t else none
        | none => none
      else none) = (none : Option String) := by
    rintro (h | h | h) <;> simp [h]
  refine ⟨?_, ?_, ?_, ?_, by decide⟩
  · intro t hav htok hne
    simp [getTokenFrom, hav, htok, hne]
  · intro h c hc hne
    simp only [getTokenFrom, hcli h, hc, hne, if_true]
    simp [hne]
  · intro h hfile
    simp only [getTokenFrom, hcli h]
    rcases hfile with hnone | hempty
    · simp [hnone]
    · cases hfc : fs fileName with
      | none => simp
      | some c => simp [hempty c hfc]
  · intro st e htok
    simp [githubValidateCredentials, githubValidateBody, htok,
      retryWithBackoff]

/-- Witness for C2: with all three sources populated resolution returns the
CLI value; and a state with no token fails validation with the
token-not-found message. -/
theorem C2_credential_resolution_order_witness :
    getTokenFrom (fun _ => some " fileTok ")
      (fun _ => some "envTok") true (some "cliTok")
      ".deployx_token" "GITHUB_TOKEN" = some "cliTok" ∧
    githubValidateCredentials
      { repoName := some "alice/proj", method := "branch", branch := "gh-pages"
        token := none, autoCreation := false, repoObj := false
        deploymentRepoName := some "alice/proj" }
      { cwdBasename := .ok "proj", autoCreate := fun _ => (false, "", none)
        getUser := .ok "alice", getRepo := .ok ()
        collaboratorPermission := .ok "admin" }
      = .ok ((false, handleAuthErrorMessage "github" "No token provided"),
          { repoName := some "alice/proj", method := "branch"
            branch := "gh-pages", token := none, autoCreation := false
            repoObj := false, deploymentRepoName := some "alice/proj" }) :=
  ⟨(C2_credential_resolution_order (fun _ => some " fileTok ")
      (fun _ => some "envTok") true (some "cliTok") ".deployx_token"
      "GITHUB_TOKEN").1 "cliTok" rfl rfl (by decide),
   (C2_credential_resolution_order (fun _ => some " fileTok ")
      (fun _ => some "envTok") true (some "cliTok") ".deployx_token"
      "GITHUB_TOKEN").2.2.2.1 _ _ (by decide)⟩

/-- C3: branch-mutation deployment is idempotent: when the commit step
reports "nothing to commit" (as on a second deploy of unchanged build
output), `deploy_to_branch` returns `success = true` with message
"No changes to deploy" and the same Pages URL that the first, successful
deploy reported (`generatePagesUrl` of the same repository name), creating no
push (no new history). -/
theorem C3_branch_deploy_idempotent
    (repoName : Option String) (branch projectPath outputDir : String)
    (e1 e2 : BranchDeployEnv) (m : String)
    (h1out : e1.outputExists = true)
    (h1repo : (if e1.repoOpenFails then e1.repoInit else Except.ok ())
      = .ok ())
    (h1co : checkoutCascade e1 = .ok ())
    (h1add : e1.gitAdd = .ok ())
    (h1commit : e1.gitCommit = .ok ())
    (h1push : e1.gitPush = .ok ())
    (h2out : e2.outputExists = true)
    (h2repo : (if e2.repoOpenFails then e2.repoInit else Except.ok ())
      = .ok ())
    (h2co : checkoutCascade e2 = .ok ())
    (h2add : e2.gitAdd = .ok ())
    (h2commit : e2.gitCommit = .error (.gitCommandError m))
    (h2msg : pyContains m "nothing to commit" = true) :
    deployToBranch repoName branch projectPath outputDir e1
      = .ok { success := true
              message := "Successfully deployed to GitHub Pages (branch: "
                ++ branch ++ ")"
              url := some (generatePagesUrl repoName)
              deploymentId := none } ∧
    deployToBranch repoName branch projectPath outputDir e2
      = .ok { success := true
              message := "No changes to deploy"
              url := some (generatePagesUrl repoName)
              deploymentId := none } := by
  constructor
  · unfold deployToBranch deployToBranchBody
    rw [h1repo, h1co, h1add, h1commit, h1push]
    simp [h1out]
  · unfold deployToBranch deployToBranchBody
    rw [h2repo, h2co, h2add, h2commit]
    simp [h2out, h2msg]

/-- Witness for C3 at a concrete environment pair. -/
theorem C3_branch_deploy_idempotent_witness :
    deployToBranch (some "alice/proj") "gh-pages" "." "build"
      { outputExists := true, repoOpenFails := false, repoInit := .ok ()
        branchInRefs := true, checkoutExisting := .ok ()
        checkoutNew := .ok (), checkoutRemote := .ok ()
        checkoutOrphan := .ok (), projectEntries := []
        removeOk := fun _ => true, outputEntries := []
        copyOk := fun _ => true, gitAdd := .ok ()
        gitCommit := .error (.gitCommandError
          "nothing to commit, working tree clean")
        gitPush := .ok () }
      = .ok { success := true
              message := "No changes to deploy"
              url := some (generatePagesUrl (some "alice/proj"))
              deploymentId := none } :=
  (C3_branch_deploy_idempotent (some "alice/proj") "gh-pages" "." "build"
    { outputExists := true, repoOpenFails := false, repoInit := .ok ()
      branchInRefs := true, checkoutExisting := .ok (), checkoutNew := .ok ()
      checkoutRemote := .ok (), checkoutOrphan := .ok ()
      projectEntries := [], removeOk := fun _ => true, outputEntries := []
      copyOk := fun _ => true, gitAdd := .ok (), gitCommit := .ok ()
      gitPush := .ok () }
    { outputExists := true, repoOpenFails := false, repoInit := .ok ()
      branchInRefs := true, checkoutExisting := .ok (), checkoutNew := .ok ()
      checkoutRemote := .ok (), checkoutOrphan := .ok ()
      projectEntries := [], removeOk := fun _ => true, outputEntries := []
      copyOk := fun _ => true, gitAdd := .ok ()
      gitCommit := .error (.gitCommandError
        "nothing to commit, working tree clean")
      gitPush := .ok () }
    "nothing to commit, working tree clean"
    rfl rfl rfl rfl rfl rfl rfl rfl rfl rfl rfl (by decide)).2

/-- C7 counterexample: construct a `GitHubPlatform` while no credential
source yields a token, then rotate a token into the environment.  Resolution
over the rotated sources would find it, but the next `validate_credentials`
call still fails with the token-not-found message: GitHub resolves the token
only in `__init__` and never consults the sources again (its
`validate_credentials` environment contains no credential sources at all). -/
theorem C7_counterexample_github_token_cached :
    (githubInit {} (fun _ => none) (fun _ => none) false none).token
      = none ∧
    githubGetToken (fun _ => none)
      (fun n => if n = "GITHUB_TOKEN" then some "rotated-token" else none)
      false none = some "rotated-token" ∧
    githubValidateCredentials
      (githubInit {} (fun _ => none) (fun _ => none) false none)
      { cwdBasename := .ok "proj", autoCreate := fun _ => (false, "", none)
        getUser := .ok "alice", getRepo := .ok ()
        collaboratorPermission := .ok "admin" }
      = .ok ((false, "github token not found"),
          githubInit {} (fun _ => none) (fun _ => none) false none) := by
  refine ⟨rfl, by decide, rfl⟩

theorem githubValidateStep1_token (st : GitHubState) (e : GitHubValEnv)
    (st1 : GitHubState) (h : githubValidateStep1 st e = .ok st1) :
    st1.token = st.token := by
  unfold githubValidateStep1 at h
  split at h
  · cases hcw : e.cwdBasename with
    | error ex => rw [hcw] at h; cases h
    | ok pname =>
      rw [hcw] at h
      rcases e.autoCreate pname with ⟨succ, msg, full⟩
      dsimp at h
      split at h
      · cases h; rfl
      · cases h; rfl
  · cases h; rfl

theorem githubValidateTryBlock_token (st1 : GitHubState) (e : GitHubValEnv) :
    (githubValidateTryBlock st1 e).2.token = st1.token := by
  unfold githubValidateTryBlock
  cases e.getUser with
  | error ex => rfl
  | ok login =>
    cases e.getRepo with
    | error ex => rfl
    | ok _ =>
      cases e.collaboratorPermission with
      | error ex => rfl
      | ok perms =>
        dsimp
        split_ifs <;> rfl

theorem githubValidateHandlers_state
    (tb : Except PyExc (Bool × String) × GitHubState) :
    (githubValidateHandlers tb).2 = tb.2 := by
  rcases tb with ⟨r, stE⟩
  cases r with
  | ok v => rfl
  | error ex => cases ex <;> rfl

theorem githubValidateAfterStep1_token (st1 : GitHubState)
    (e : GitHubValEnv) :
    (githubValidateAfterStep1 st1 e).2.token = st1.token := by
  unfold githubValidateAfterStep1
  split
  · rfl
  · rw [githubValidateHandlers_state, githubValidateTryBlock_token]

theorem githubValidateBody_token (st : GitHubState) (e : GitHubValEnv) :
    (githubValidateBody st e).2.token = st.token := by
  unfold githubValidateBody
  split
  · rfl
  · cases h1 : githubValidateStep1 st e with
    | error ex => rfl
    | ok st1 =>
      exact (githubValidateAfterStep1_token st1 e).trans
        (githubValidateStep1_token st e st1 h1)

theorem netlifyValidateBody_token (st : NetlifyState) (e : NetlifyValEnv) :
    (netlifyValidateBody st e).2.token
      = netlifyGetToken e.fs e.env e.cliAvailable e.cliToken := by
  unfold netlifyValidateBody
  rcases hvt : e.validateToken with ⟨valid, message⟩
  cases hcw : e.cwdBasename with
  | error ex =>
    simp only [hvt, hcw]
    split_ifs <;> rfl
  | ok siteName =>
    rcases hac : e.autoCreateSite siteName with ⟨succ, smsg, sid⟩
    simp only [hvt, hcw, hac]
    split_ifs <;> rfl

/-- C7 (amended): `NetlifyPlatform.validate_credentials` re-resolves the
credential from the three sources at every call (the state it leaves behind
always carries the freshly resolved token, whatever token was stored
before); `GitHubPlatform` resolves the token once, at construction, and
`validate_credentials` leaves the stored token unchanged, so an externally
rotated token is not picked up by GitHub until the platform object is
rebuilt. -/
theorem C7_amended_token_refresh
    (nst : NetlifyState) (ne : NetlifyValEnv)
    (cfg : GitHubConfig) (fs env : String → Option String)
    (cliAvailable : Bool) (cliToken : Option String)
    (gst : GitHubState) (ge : GitHubValEnv) :
    (netlifyValidateBody nst ne).2.token
      = netlifyGetToken ne.fs ne.env ne.cliAvailable ne.cliToken ∧
    (githubInit cfg fs env cliAvailable cliToken).token
      = githubGetToken fs env cliAvailable cliToken ∧
    (githubValidateBody gst ge).2.token = gst.token :=
  ⟨netlifyValidateBody_token nst ne, rfl, githubValidateBody_token gst ge⟩

theorem deployToBranch_isOk (repoName : Option String)
    (branch p o : String) (e : BranchDeployEnv) :
    exceptIsOk (deployToBranch repoName branch p o e) = true := by
  unfold deployToBranch
  split <;> rfl

theorem deployToDocsFolder_isOk (repoName : Option String)
    (p o : String) (e : DocsDeployEnv) :
    exceptIsOk (deployToDocsFolder repoName p o e) = true := by
  unfold deployToDocsFolder
  split <;> rfl

/-- C4: no exception crosses the PlatformContract boundary: for every
platform state and every environment — including environments whose oracle
calls raise arbitrary exceptions — each embedded operation
(`validate_credentials`, `prepare_deployment`, `execute_deployment`,
`get_status`/`get_deployment_status`) on the GitHub and Netlify backends
evaluates to a value-level result (`(bool, message)`, `DeploymentResult` or
`DeploymentStatus`), never to a propagated exception.  `get_url` on both
backends (`githubGetUrl`, `netlifyGetUrl`) is embedded as a total pure
function, so its totality is definitional. -/
theorem C4_no_exception_crosses_boundary :
    (∀ (st : GitHubState) (e : GitHubValEnv),
      exceptIsOk (githubValidateCredentials st e) = true) ∧
    (∀ (st : GitHubState) (e : GitHubValEnv),
      exceptIsOk (githubPrepareDeployment st e) = true) ∧
    (∀ (st : GitHubState) (p o : String) (eb : BranchDeployEnv)
      (ed : DocsDeployEnv),
      exceptIsOk (githubExecuteDeployment st p o eb ed) = true) ∧
    (∀ (st : GitHubState) (e : GitHubStatusEnv),
      exceptIsOk (githubGetDeploymentStatus st e) = true) ∧
    (∀ (st : NetlifyState) (e : NetlifyValEnv),
      exceptIsOk (netlifyValidateCredentials st e) = true) ∧
    (∀ (st : NetlifyState) (e : NetlifyValEnv) (b : Bool) (p o : String),
      exceptIsOk (netlifyPrepareDeployment st e b p o) = true) ∧
    (∀ (st : NetlifyState) (p o : String) (e : NetlifyExecEnv),
      exceptIsOk (netlifyExecuteDeployment st p o e) = true) ∧
    (∀ (st : NetlifyState) (r : HttpDeploysResponse),
      exceptIsOk (netlifyGetDeploymentStatus st r) = true) := by
  refine ⟨fun st e => rfl, ?_, ?_, ?_, fun st e => rfl, ?_, ?_, ?_⟩
  · intro st e
    unfold githubPrepareDeployment githubValidateCredentials
    rcases hr : retryWithBackoff (githubValidateBody st e).1
      with ⟨valid, message⟩
    dsimp only
    split_ifs <;> rfl
  · intro st p o eb ed
    unfold githubExecuteDeployment
    split_ifs with h1 h2
    · exact deployToBranch_isOk st.deploymentRepoName st.branch p o eb
    · exact deployToDocsFolder_isOk st.deploymentRepoName p o ed
    · rfl
  · intro st e
    unfold githubGetDeploymentStatus
    split <;> rfl
  · intro st e b p o
    unfold netlifyPrepareDeployment netlifyValidateCredentials
    rcases hr : retryWithBackoff (netlifyValidateBody st e).1
      with ⟨valid, message⟩
    dsimp only
    split_ifs <;> rfl
  · intro st p o e
    unfold netlifyExecuteDeployment
    split <;> rfl
  · intro st r
    unfold netlifyGetDeploymentStatus
    rcases ht : netlifyApiGetDeploymentStatus r with ⟨success, status, url⟩
    dsimp only
    split_ifs <;> rfl

/-- C5 counterexample: the temporary zip bundle is NOT deleted on every exit
path.  When the build directory exists but archiving its entries raises (an
unreadable file, say) after `tempfile.NamedTemporaryFile(delete=False)` has
already created the file, `deploy_site` returns a failure result and the
bundle is still on disk: the `try/finally` that unlinks it is only entered
after `_create_deployment_zip` returns. -/
theorem C5_counterexample_zip_leaked_on_bundle_failure :
    netlifyApiDeploySite "." "build"
      { buildDirExists := true
        zipWrite := .error (.other "OSError" "unreadable file")
        uploadBlock := .ok (true, "Deployment successful",
          some "https://x.netlify.app")
        unlink := .ok () }
      = ((false, "Deployment error: unreadable file", none), true) := by
  rfl

/-- C5 (amended): the temporary zip bundle does not exist on disk after
`deploy_site` returns on the early no-build-directory path (no bundle is
created) and on every path on which the bundle was successfully created and
the `finally` unlink succeeds — success, remote rejection, and any local
failure raised inside the upload block; a failure while building the bundle
itself (or of the unlink call) leaves the temporary file on disk. -/
theorem C5_amended_zip_cleanup (p b : String) (e : ZipEnv) :
    (e.buildDirExists = false →
      (netlifyApiDeploySite p b e).2 = false) ∧
    (e.zipWrite = .ok () → e.unlink = .ok () →
      (netlifyApiDeploySite p b e).2 = false) := by
  constructor
  · intro h
    unfold netlifyApiDeploySite
    simp [h]
  · intro hzip hunlink
    unfold netlifyApiDeploySite
    rw [hzip, hunlink]
    split_ifs <;> first | rfl | (cases e.uploadBlock <;> rfl)

/-- Witness for C5 (amended): a successful upload leaves no bundle behind. -/
theorem C5_amended_zip_cleanup_witness :
    (netlifyApiDeploySite "." "build"
      { buildDirExists := true, zipWrite := .ok ()
        uploadBlock := .ok (true, "Deployment successful",
          some "https://x.netlify.app")
        unlink := .ok () }).2 = false :=
  (C5_amended_zip_cleanup "." "build"
    { buildDirExists := true, zipWrite := .ok ()
      uploadBlock := .ok (true, "Deployment successful",
        some "https://x.netlify.app")
      unlink := .ok () }).2 rfl rfl

/-- C8: when the operating system performs every removal, the working-tree
clearing step of the branch-mutation deploy keeps exactly the entries on the
protected allow-list — `.git`, the build-output directory, `.gitignore` and
`CNAME` — and leaves each of them in place; every other top-level entry is
removed.  (Inside `deployToBranchBody` the build output is copied to the
root only after this clearing step.) -/
theorem C8_clear_working_tree (entries : List Entry) (outputDir : String)
    (removeOk : String → Bool) (h : ∀ n, removeOk n = true) :
    clearWorkingTree entries outputDir removeOk
      = entries.filter
          (fun e => (protectedItems outputDir).contains e.name) ∧
    (∀ e ∈ clearWorkingTree entries outputDir removeOk,
      (protectedItems outputDir).contains e.name = true) ∧
    (∀ e ∈ entries, (protectedItems outputDir).contains e.name = true →
      e ∈ clearWorkingTree entries outputDir removeOk) := by
  have hmain : clearWorkingTree entries outputDir removeOk
      = entries.filter
          (fun e => (protectedItems outputDir).contains e.name) := by
    unfold clearWorkingTree
    simp [h]
  refine ⟨hmain, ?_, ?_⟩
  · intro e he
    rw [hmain] at he
    exact (List.mem_filter.mp he).2
  · intro e he hp
    rw [hmain]
    exact List.mem_filter.mpr ⟨he, hp⟩

/-- Witness for C8 at a concrete working tree. -/
theorem C8_clear_working_tree_witness :
    clearWorkingTree
      [⟨".git", true⟩, ⟨"src", true⟩, ⟨"build", true⟩, ⟨"README.md", false⟩,
       ⟨".gitignore", false⟩, ⟨"CNAME", false⟩]
      "build" (fun _ => true)
      = [⟨".git", true⟩, ⟨"src", true⟩, ⟨"build", true⟩,
         ⟨"README.md", false⟩, ⟨".gitignore", false⟩,
         ⟨"CNAME", false⟩].filter
          (fun e => (protectedItems "build").contains e.name) :=
  (C8_clear_working_tree
    [⟨".git", true⟩, ⟨"src", true⟩, ⟨"build", true⟩, ⟨"README.md", false⟩,
     ⟨".gitignore", false⟩, ⟨"CNAME", false⟩]
    "build" (fun _ => true) (fun _ => rfl)).1

end DeployX
